import Mathlib

/-!
Shallow embedding of the frext-web API client and hook layer
(`src/frext-web/src/lib/api/client.ts`, `src/frext-web/src/lib/api/hooks/useApi.ts`).

JavaScript string-keyed objects (header maps) are modelled as
`String → Option String`; object identity (needed because the client
constructor stores a *reference* to `API_CONFIG.headers`) is modelled by a
small heap `Store : Nat → HeaderMap` with references as naturals.
The browser platform (fetch, AbortSignal.timeout, JSON, localStorage,
setTimeout) is modelled by its standard semantics: a fetch either resolves
with a response or rejects with a JavaScript error value; a request that
exceeds its `AbortSignal.timeout` deadline rejects with a DOMException
whose `name` is `"TimeoutError"` (not `"AbortError"`); `JSON.parse` of
`JSON.stringify v` yields `v`; localStorage maps string keys to strings.
-/

namespace Frext

/-- A JavaScript object used as an HTTP header map: finitely many string
keys to string values, looked up by key. -/
def HeaderMap : Type := String → Option String

/-- The empty object `{}`. -/
def HeaderMap.empty : HeaderMap := fun _ => none

/-- JavaScript property assignment `obj[k] = v`. -/
def HeaderMap.set (m : HeaderMap) (k v : String) : HeaderMap :=
  fun q => if q = k then some v else m q

/-- JavaScript `delete obj[k]`. -/
def HeaderMap.del (m : HeaderMap) (k : String) : HeaderMap :=
  fun q => if q = k then none else m q

/-- Property lookup `obj[k]`, `none` when the key is absent. -/
def HeaderMap.get (m : HeaderMap) (k : String) : Option String := m k

/-- JavaScript object spread `{...a, ...b}`: keys of `b` override keys of
`a`; keys present only in `a` are kept (spreading never deletes a key). -/
def HeaderMap.merge (a b : HeaderMap) : HeaderMap :=
  fun q => match b q with
  | some v => some v
  | none => a q

/-- `API_CONFIG.timeout` (client.ts line 80): 30000 ms. -/
def apiTimeoutMs : Nat := 30000

/-- `API_CONFIG.apiPrefix` (client.ts line 79). -/
def apiVersionPath : String := "/api/v1"

/-- The initial contents of the `API_CONFIG.headers` object
(client.ts lines 81–83): `{'Content-Type': 'application/json'}`. -/
def apiConfigHeadersInit : HeaderMap :=
  HeaderMap.set HeaderMap.empty "Content-Type" "application/json"

/-- Heap of header objects: references (naturals) to header maps.  Needed
because `FrextApiClient`'s constructor stores `API_CONFIG.headers` by
reference, so mutations through one client are visible everywhere. -/
def Store : Type := Nat → HeaderMap

/-- The reference of the module-level `API_CONFIG.headers` object. -/
def apiConfigHeadersRef : Nat := 0

/-- The heap at module load: `API_CONFIG.headers` holds the content-type
entry; no other header object has been created. -/
def Store.init : Store :=
  fun r => if r = apiConfigHeadersRef then apiConfigHeadersInit else HeaderMap.empty

/-- `class FrextApiClient` (client.ts lines 89–96): `baseUrl` is the
constructor argument with `API_CONFIG.apiPrefix` appended; `defaultHeaders`
is a *reference* to a header object. -/
structure FrextApiClient where
  baseUrl : String
  defaultHeaders : Nat

/-- The constructor (client.ts lines 93–96): `this.baseUrl = baseUrl +
API_CONFIG.apiPrefix; this.defaultHeaders = API_CONFIG.headers`.  The
assignment copies the reference, not the object, so every instance aliases
the single `API_CONFIG.headers` object. -/
def mkClient (baseUrl : String) : FrextApiClient :=
  ⟨baseUrl ++ apiVersionPath, apiConfigHeadersRef⟩

/-- `setAuthToken` (client.ts lines 101–103):
`this.defaultHeaders['Authorization'] = ` backtick-interpolated
`Bearer <token>`; mutates the referenced header object in place. -/
def setAuthToken (c : FrextApiClient) (token : String) (s : Store) : Store :=
  fun r => if r = c.defaultHeaders
    then HeaderMap.set (s r) "Authorization" ("Bearer " ++ token)
    else s r

/-- `clearAuthToken` (client.ts lines 108–110):
`delete this.defaultHeaders['Authorization']`, again in place. -/
def clearAuthToken (c : FrextApiClient) (s : Store) : Store :=
  fun r => if r = c.defaultHeaders
    then HeaderMap.del (s r) "Authorization"
    else s r

/-- The header map of the issued request (client.ts lines 121–126):
`{...this.defaultHeaders, ...options.headers}` where `options.headers` may
be absent (spreading `undefined` adds nothing). -/
def requestHeaders (defaultHeaders : HeaderMap) (optionHeaders : Option HeaderMap) :
    HeaderMap :=
  match optionHeaders with
  | some h => HeaderMap.merge defaultHeaders h
  | none => defaultHeaders

/-- The per-call header override built by `postFormData` (client.ts lines
192–193): a copy of `defaultHeaders` with `'Content-Type'` deleted, so
that the runtime can set the multipart boundary. -/
def postFormDataOverride (defaultHeaders : HeaderMap) : HeaderMap :=
  HeaderMap.del defaultHeaders "Content-Type"

/-- The headers actually issued by a `postFormData` call: `postFormData`
passes its override as `options.headers`, and `request` merges it over
`this.defaultHeaders` (client.ts lines 123–126 and 195–199). -/
def postFormDataIssuedHeaders (defaultHeaders : HeaderMap) : HeaderMap :=
  requestHeaders defaultHeaders (some (postFormDataOverride defaultHeaders))

/-- A JavaScript `Error` (or `DOMException`) value: its `name` and
`message` properties. -/
structure JsErr where
  name : String
  message : String
deriving DecidableEq

/-- A thrown JavaScript value: either an `Error` instance or some
non-`Error` value (`error instanceof Error` is false). -/
inductive Thrown where
  | jsError (e : JsErr)
  | nonError

/-- `interface ApiResponse<T>` (client.ts lines 15–20): the uniform
envelope `{success, data?, error?, message?}`. -/
structure ApiResponse (T : Type) where
  success : Bool
  data : Option T
  error : Option String
  message : Option String
deriving DecidableEq

/-- The possible outcomes of the `fetch` performed by `request`, per the
platform semantics of `fetch` and `AbortSignal.timeout`:
`success env` — `response.ok` and `response.json()` parsed the envelope;
`successBadJson e` — `response.ok` but `response.json()` threw `e`;
`httpError status statusText body` — non-2xx status; `body` is `none`
when the error body failed to parse (so `errorData` is `{}`), and
`some m` when it parsed to an object whose `message` field is `m`
(absent when `m = none`);
`reject t` — `fetch` rejected with the thrown value `t`
(e.g. a network failure);
`timeout message` — the request exceeded the `AbortSignal.timeout`
deadline, so `fetch` rejected with the signal's abort reason: a
`DOMException` whose `name` is `"TimeoutError"` and whose `message` is
the platform text (e.g. `"signal timed out"`). -/
inductive FetchOutcome (T : Type) where
  | success (envelope : ApiResponse T)
  | successBadJson (e : JsErr)
  | httpError (status : Nat) (statusText : String) (body : Option (Option String))
  | reject (t : Thrown)
  | timeout (message : String)

/-- The fixed localized timeout message (client.ts line 153). -/
def timeoutMessage : String :=
  "リクエストがタイムアウトしました。時間をおいて再試行してください。"

/-- The fixed localized network-failure message (client.ts line 159). -/
def networkErrorMessage : String :=
  "frext-apiサーバーに接続できません。ネットワーク接続を確認してください。"

/-- Whether `pat` occurs as a contiguous run inside the character list. -/
def containsSubList (pat : List Char) : List Char → Bool
  | [] => false
  | c :: rest => pat.isPrefixOf (c :: rest) || containsSubList pat rest

/-- JavaScript `s.includes(pat)` for a nonempty literal `pat`. -/
def containsSub (s pat : String) : Bool :=
  containsSubList pat.toList s.toList

/-- JavaScript `o || d` where `o` is a string property that may be absent:
an absent or empty (falsy) string falls through to `d`. -/
def jsOr (o : Option String) (d : String) : String :=
  match o with
  | some s => if s = "" then d else s
  | none => d

/-- The generic fallback error text built at client.ts line 137:
`HTTP <status>: <statusText>`. -/
def httpStatusMessage (status : Nat) (statusText : String) : String :=
  "HTTP " ++ toString status ++ ": " ++ statusText

/-- The `catch` block of `request` (client.ts lines 146–168): an
`AbortError` maps to the localized timeout message; an error whose
message contains `'NetworkError'` or `'Failed to fetch'` maps to the
localized network message; any other `Error` is surfaced as its own
message; a non-`Error` thrown value maps to `'Unknown error occurred'`. -/
def requestCatch (T : Type) (t : Thrown) : ApiResponse T :=
  match t with
  | .jsError e =>
    if e.name = "AbortError" then
      ⟨false, none, some timeoutMessage, none⟩
    else if containsSub e.message "NetworkError" || containsSub e.message "Failed to fetch" then
      ⟨false, none, some networkErrorMessage, none⟩
    else
      ⟨false, none, some e.message, none⟩
  | .nonError => ⟨false, none, some "Unknown error occurred", none⟩

/-- `FrextApiClient.request` (client.ts lines 115–169) as a function of
the fetch outcome.  On `response.ok` the parsed envelope is returned
as-is; a non-2xx response throws
`new Error(errorData.message || 'HTTP <status>: <statusText>')`
(name `"Error"`), which the catch block then classifies; a rejection or
a thrown JSON-parse failure lands in the catch block directly; a timeout
rejects with the `"TimeoutError"` DOMException. -/
def requestResult (T : Type) (outcome : FetchOutcome T) : ApiResponse T :=
  match outcome with
  | .success env => env
  | .successBadJson e => requestCatch T (.jsError e)
  | .httpError status statusText body =>
    let msgField : Option String :=
      match body with
      | some m => m
      | none => none
    requestCatch T (.jsError ⟨"Error", jsOr msgField (httpStatusMessage status statusText)⟩)
  | .reject t => requestCatch T t
  | .timeout msg => requestCatch T (.jsError ⟨"TimeoutError", msg⟩)

/-- The error message the amended claim C6 ascribes to a non-2xx
response: the parsed body's `message` field when present and non-empty,
otherwise the generic `HTTP <status>: <statusText>` text; except that a
chosen string containing `'NetworkError'` or `'Failed to fetch'` is
replaced by the localized network-failure message. -/
def httpErrorMessageSpec (status : Nat) (statusText : String)
    (body : Option (Option String)) : String :=
  let raw :=
    match body with
    | some (some m) => if m = "" then httpStatusMessage status statusText else m
    | _ => httpStatusMessage status statusText
  if containsSub raw "NetworkError" || containsSub raw "Failed to fetch" then
    networkErrorMessage
  else raw

/-- C1: contrary to the claim, the headers issued by `postFormData` still
contain `'Content-Type': 'application/json'`: the override deletes the
key from a copy, but `request`'s spread `{...defaultHeaders,
...options.headers}` restores it from the untouched default object. -/
theorem postFormData_content_type_reappears :
    HeaderMap.get (postFormDataIssuedHeaders apiConfigHeadersInit) "Content-Type"
      = some "application/json" := by
  decide

/-- C2: at a timeout the fetch rejects with a `"TimeoutError"`
DOMException, so `request`'s check for name `"AbortError"` fails and the
envelope carries the platform's raw message (here `"signal timed out"`),
not the fixed localized timeout message. -/
theorem request_timeout_raw_message :
    requestResult Unit (.timeout "signal timed out")
      = ⟨false, none, some "signal timed out", none⟩ ∧
    "signal timed out" ≠ timeoutMessage := by
  constructor
  · decide
  · decide

/-- C6 counterexample: a 400 response whose parsed body has the `message`
field present but empty yields the generic `HTTP 400: Bad Request` text,
not the (empty) `message` field value the claim prescribes. -/
theorem request_http_error_empty_message_fallback :
    (requestResult Unit (.httpError 400 "Bad Request" (some (some "")))).error
      = some "HTTP 400: Bad Request" ∧
    ("HTTP 400: Bad Request" : String) ≠ "" := by
  constructor
  · decide
  · decide

/-- The error field produced by the catch block for a plain `Error`
(name `"Error"`): the localized network message when the text matches the
network patterns, the text itself otherwise. -/
theorem requestCatch_plain_error (T : Type) (msg : String) :
    (requestCatch T (.jsError ⟨"Error", msg⟩)).error
      = some (if containsSub msg "NetworkError" || containsSub msg "Failed to fetch"
              then networkErrorMessage else msg) := by
  simp only [requestCatch]
  rw [if_neg (by decide)]
  cases h : containsSub msg "NetworkError" || containsSub msg "Failed to fetch" <;>
    simp [h]

/-- C6 amended: for every non-2xx response, the envelope's error string
is the parsed body's `message` field when present and non-empty,
otherwise the generic `HTTP <status>: <statusText>` text — except that a
chosen string containing `'NetworkError'` or `'Failed to fetch'` is
replaced by the localized network-failure message. -/
theorem request_http_error_message (T : Type) (status : Nat) (statusText : String)
    (body : Option (Option String)) :
    (requestResult T (.httpError status statusText body)).error
      = some (httpErrorMessageSpec status statusText body) := by
  rcases body with _ | (_ | m) <;>
    exact requestCatch_plain_error T _

/-- `interface User` (client.ts lines 32–38). -/
structure User where
  id : String
  email : String
  name : String
  avatar : Option String
  createdAt : String
deriving DecidableEq

/-- The data payload of `/auth/verify` (client.ts line 409): `{user}`. -/
structure VerifyData where
  user : User
deriving DecidableEq

/-- Browser `localStorage`: string keys to string values. -/
def LocalStorage : Type := String → Option String

/-- `localStorage.getItem(k)`: `none` models the `null` result. -/
def LocalStorage.getItem (σ : LocalStorage) (k : String) : Option String := σ k

/-- `localStorage.setItem(k, v)`. -/
def LocalStorage.setItem (σ : LocalStorage) (k v : String) : LocalStorage :=
  fun q => if q = k then some v else σ q

/-- `localStorage.removeItem(k)`. -/
def LocalStorage.removeItem (σ : LocalStorage) (k : String) : LocalStorage :=
  fun q => if q = k then none else σ q

/-- Storage with no keys set. -/
def LocalStorage.empty : LocalStorage := fun _ => none

/-- The observable result of `authApi.logout`. -/
structure LogoutResult where
  response : ApiResponse Unit
  store : Store
  storage : LocalStorage

/-- `authApi.logout` (client.ts lines 383–393): awaits the POST (whose
result is always an envelope — `request` converts every failure into one
and never throws), then unconditionally calls `clearAuthToken` and
removes `'frext_auth_token'` from local storage, with no test of
`response.success`. -/
def logout (c : FrextApiClient) (s : Store) (σ : LocalStorage)
    (outcome : FetchOutcome Unit) : LogoutResult :=
  let response := requestResult Unit outcome
  ⟨response, clearAuthToken c s, LocalStorage.removeItem σ "frext_auth_token"⟩

/-- `authApi.verifyToken` (client.ts lines 409–412): sets the bearer
token on the client, then performs a GET whose result is the envelope of
the given fetch outcome. -/
def verifyToken (c : FrextApiClient) (token : String) (s : Store)
    (outcome : FetchOutcome VerifyData) : ApiResponse VerifyData × Store :=
  (requestResult VerifyData outcome, setAuthToken c token s)

/-- The observable result of `authApi.autoLogin`. -/
structure AutoLoginResult where
  returnValue : Bool
  storage : LocalStorage
  store : Store

/-- `authApi.autoLogin` (client.ts lines 417–430): reads
`'frext_auth_token'`; absent ⇒ `false`.  Otherwise it runs
`verifyToken` inside `try` and returns `response.success`.  The `try`
body cannot throw — `verifyToken` is `setAuthToken` followed by
`request`, and `request` converts every failure into an envelope — so
the `catch` branch (the only place the stored token is removed) is
unreachable and the storage is returned unchanged. -/
def autoLogin (c : FrextApiClient) (σ : LocalStorage) (s : Store)
    (outcome : FetchOutcome VerifyData) : AutoLoginResult :=
  match σ.getItem "frext_auth_token" with
  | none => ⟨false, σ, s⟩
  | some savedToken =>
    let r := verifyToken c savedToken s outcome
    ⟨r.1.success, σ, r.2⟩

/-- C7: after `logout`, whatever the fetch outcome, the client's header
object has no `Authorization` entry and local storage has no
`'frext_auth_token'` entry: the clearing is not conditioned on
`response.success`. -/
theorem logout_clears_unconditionally (c : FrextApiClient) (s : Store)
    (σ : LocalStorage) (outcome : FetchOutcome Unit) :
    HeaderMap.get ((logout c s σ outcome).store c.defaultHeaders) "Authorization" = none ∧
    ((logout c s σ outcome).storage).getItem "frext_auth_token" = none := by
  constructor <;>
    simp [logout, clearAuthToken, HeaderMap.get, HeaderMap.del,
      LocalStorage.getItem, LocalStorage.removeItem]

/-- C4 counterexample: with `'frext_auth_token' = "tok"` stored and the
verification answered by an HTTP 401, `autoLogin` returns `false` but the
token is still in local storage — the claim's "removes the stored token"
fails. -/
theorem autoLogin_keeps_token_on_failure :
    (autoLogin (mkClient "http://localhost:3001")
        (LocalStorage.setItem LocalStorage.empty "frext_auth_token" "tok")
        Store.init (.httpError 401 "Unauthorized" none)).returnValue = false ∧
    ((autoLogin (mkClient "http://localhost:3001")
        (LocalStorage.setItem LocalStorage.empty "frext_auth_token" "tok")
        Store.init (.httpError 401 "Unauthorized" none)).storage).getItem
      "frext_auth_token" = some "tok" := by
  constructor <;> decide

/-- C4 amended: with a token present, if the verification envelope has
`success` false (invalid token, HTTP error, network failure — all of
which `request` converts into envelopes rather than exceptions), then
`autoLogin` returns `false` and leaves local storage unchanged; the
stored token is not removed. -/
theorem autoLogin_failure_returns_false (c : FrextApiClient) (σ : LocalStorage)
    (s : Store) (token : String) (outcome : FetchOutcome VerifyData)
    (htok : σ.getItem "frext_auth_token" = some token)
    (hfail : (requestResult VerifyData outcome).success = false) :
    (autoLogin c σ s outcome).returnValue = false ∧
    (autoLogin c σ s outcome).storage = σ := by
  simp [autoLogin, htok, verifyToken, hfail]

/-- C4 amended, witness: a concrete run with a stored token and a 401
verification outcome. -/
theorem autoLogin_failure_returns_false_witness :
    (autoLogin (mkClient "http://localhost:3001")
        (LocalStorage.setItem LocalStorage.empty "frext_auth_token" "tok")
        Store.init (.httpError 401 "Unauthorized" (some (some "Invalid token")))).returnValue
      = false ∧
    (autoLogin (mkClient "http://localhost:3001")
        (LocalStorage.setItem LocalStorage.empty "frext_auth_token" "tok")
        Store.init (.httpError 401 "Unauthorized" (some (some "Invalid token")))).storage
      = LocalStorage.setItem LocalStorage.empty "frext_auth_token" "tok" :=
  autoLogin_failure_returns_false _ _ _ "tok" _ (by decide) (by decide)

/-- C10: setting the bearer token through one client instance mutates the
single shared `API_CONFIG.headers` object, so the `Authorization` entry
appears in the headers of every other instance — ones constructed before
the call and ones constructed after — and clearing through yet another
instance removes it everywhere. -/
theorem setAuthToken_shared_across_instances (s : Store) (u₁ u₂ u₃ token : String) :
    HeaderMap.get (setAuthToken (mkClient u₁) token s (mkClient u₂).defaultHeaders)
      "Authorization" = some ("Bearer " ++ token) ∧
    HeaderMap.get (setAuthToken (mkClient u₁) token s (mkClient u₃).defaultHeaders)
      "Authorization" = some ("Bearer " ++ token) ∧
    HeaderMap.get (setAuthToken (mkClient u₁) token s apiConfigHeadersRef)
      "Authorization" = some ("Bearer " ++ token) ∧
    HeaderMap.get (clearAuthToken (mkClient u₂) (setAuthToken (mkClient u₁) token s)
      apiConfigHeadersRef) "Authorization" = none := by
  refine ⟨?_, ?_, ?_, ?_⟩ <;>
    simp [mkClient, setAuthToken, clearAuthToken, HeaderMap.get, HeaderMap.set,
      HeaderMap.del]

/-- The JSON values of a JavaScript runtime: exactly the trees
`JSON.stringify` can serialize and `JSON.parse` can produce.  Numbers are
modelled as rationals; object fields as an ordered association list. -/
inductive JsonValue where
  | null
  | bool (b : Bool)
  | num (q : Rat)
  | str (s : String)
  | arr (elems : List JsonValue)
  | obj (fields : List (String × JsonValue))

/-- `interface OCRResult` (useApi.ts lines 5–9). -/
structure OCRResult where
  extractedText : String
  confidence : Rat
  processingTime : Rat

/-- `interface GPTResult` (useApi.ts lines 11–16); the `unknown` values
of `extractedData` are JSON values delivered by the backend. -/
structure GPTResult where
  summary : String
  categories : List String
  extractedData : List (String × JsonValue)
  confidence : Rat

/-- The `progress` stages of `useOCRProcess` (useApi.ts line 113). -/
inductive OCRProgress where
  | idle
  | uploading
  | processing
  | complete
deriving DecidableEq

/-- The state of `useOCRProcess` (useApi.ts lines 110–120). -/
structure OCRHookState where
  loading : Bool
  error : Option String
  progress : OCRProgress
  result : Option OCRResult

/-- `useOCRProcess.processImage` (useApi.ts lines 122–169) as a function
of the outcome of its `processOCR` call: on a successful envelope with
data it completes; otherwise it throws
`new Error(response.error || 'OCR処理に失敗しました')`, and the `catch`
block records the message in state (`loading` false, `progress` idle,
`result` null) and then *rethrows* the error (`throw error`, line 167).
The pair is (what the invocation returns or throws, the final state). -/
def processImage (outcome : FetchOutcome OCRResult) :
    Except JsErr OCRResult × OCRHookState :=
  let response := requestResult OCRResult outcome
  match response.success, response.data with
  | true, some d => (.ok d, ⟨false, none, .complete, some d⟩)
  | _, _ =>
    let e : JsErr := ⟨"Error", jsOr response.error "OCR処理に失敗しました"⟩
    (.error e, ⟨false, some e.message, .idle, none⟩)

/-- The `progress` stages of `useCompleteProcess` (useApi.ts line 269). -/
inductive CompleteProgress where
  | idle
  | uploading
  | ocr
  | gpt
  | complete
deriving DecidableEq

/-- The state of `useCompleteProcess` (useApi.ts lines 266–278). -/
structure CompleteState where
  loading : Bool
  error : Option String
  progress : CompleteProgress
  ocrResult : Option OCRResult
  gptResult : Option GPTResult

/-- `useCompleteProcess.processCompleteImage` (useApi.ts lines 280–354)
as a function of the outcomes of its sequential `processOCR` and
`processGPT` calls.  A failing OCR envelope throws before the GPT call;
after a successful OCR the intermediate state holds `ocrResult`, but a
failing GPT envelope lands in the `catch` block, whose full `setState`
resets both `ocrResult` and `gptResult` to null while recording the
message, and then rethrows. -/
def processCompleteImage (ocrOutcome : FetchOutcome OCRResult)
    (gptOutcome : FetchOutcome GPTResult) :
    Except JsErr (OCRResult × GPTResult) × CompleteState :=
  let ocrResponse := requestResult OCRResult ocrOutcome
  match ocrResponse.success, ocrResponse.data with
  | true, some od =>
    let gptResponse := requestResult GPTResult gptOutcome
    match gptResponse.success, gptResponse.data with
    | true, some gd => (.ok (od, gd), ⟨false, none, .complete, some od, some gd⟩)
    | _, _ =>
      let e : JsErr := ⟨"Error", jsOr gptResponse.error "GPT処理に失敗しました"⟩
      (.error e, ⟨false, some e.message, .idle, none, none⟩)
  | _, _ =>
    let e : JsErr := ⟨"Error", jsOr ocrResponse.error "OCR処理に失敗しました"⟩
    (.error e, ⟨false, some e.message, .idle, none, none⟩)

/-- C3 counterexample: a single failing outcome (HTTP 500) makes the
exported hook method `processImage` end in `throw`: the invocation
propagates a thrown `Error` to its caller. -/
theorem processImage_rethrows :
    (processImage (.httpError 500 "Internal Server Error" none)).1
      = Except.error ⟨"Error", "HTTP 500: Internal Server Error"⟩ := rfl

/-- C3 amended: on every failing outcome the hook converts the failure
into a message string in its state (`loading` false, `progress` idle,
`result` null), but then rethrows that same error, so the exception does
propagate to the caller. -/
theorem processImage_records_and_rethrows (outcome : FetchOutcome OCRResult)
    (h : ((requestResult OCRResult outcome).success
         && (requestResult OCRResult outcome).data.isSome) = false) :
    (processImage outcome).1
      = Except.error ⟨"Error",
          jsOr (requestResult OCRResult outcome).error "OCR処理に失敗しました"⟩ ∧
    (processImage outcome).2
      = ⟨false,
          some (jsOr (requestResult OCRResult outcome).error "OCR処理に失敗しました"),
          .idle, none⟩ := by
  cases hs : (requestResult OCRResult outcome).success <;>
    cases hd : (requestResult OCRResult outcome).data <;>
      simp_all [processImage]

/-- C3 amended, witness: the concrete 404 outcome, where the recorded and
rethrown message is the generic HTTP text. -/
theorem processImage_records_and_rethrows_witness :
    (processImage (.httpError 404 "Not Found" none)).1
      = Except.error ⟨"Error", "HTTP 404: Not Found"⟩ ∧
    (processImage (.httpError 404 "Not Found" none)).2
      = ⟨false, some "HTTP 404: Not Found", .idle, none⟩ := by
  simpa using processImage_records_and_rethrows (.httpError 404 "Not Found" none)
    (by decide)

/-- C5: whenever the OCR envelope succeeds with data but the GPT envelope
fails, the final state of `processCompleteImage` carries an error message
and has both `ocrResult` and `gptResult` reset to null: the OCR result
obtained earlier is discarded. -/
theorem processCompleteImage_gpt_failure_resets (ocrOutcome : FetchOutcome OCRResult)
    (gptOutcome : FetchOutcome GPTResult)
    (hocr : ((requestResult OCRResult ocrOutcome).success
            && (requestResult OCRResult ocrOutcome).data.isSome) = true)
    (hgpt : ((requestResult GPTResult gptOutcome).success
            && (requestResult GPTResult gptOutcome).data.isSome) = false) :
    ((processCompleteImage ocrOutcome gptOutcome).2.error).isSome = true ∧
    (processCompleteImage ocrOutcome gptOutcome).2.ocrResult = none ∧
    (processCompleteImage ocrOutcome gptOutcome).2.gptResult = none := by
  cases hs : (requestResult OCRResult ocrOutcome).success <;>
    cases hd : (requestResult OCRResult ocrOutcome).data <;>
      cases hs₂ : (requestResult GPTResult gptOutcome).success <;>
        cases hd₂ : (requestResult GPTResult gptOutcome).data <;>
          simp_all [processCompleteImage]

/-- C5 witness: a concrete successful OCR envelope followed by an HTTP
500 on the GPT call. -/
theorem processCompleteImage_gpt_failure_resets_witness :
    ((processCompleteImage
        (.success ⟨true, some ⟨"text", 1, 100⟩, none, none⟩)
        (.httpError 500 "Internal Server Error" none)).2.error).isSome = true ∧
    (processCompleteImage
        (.success ⟨true, some ⟨"text", 1, 100⟩, none, none⟩)
        (.httpError 500 "Internal Server Error" none)).2.ocrResult = none ∧
    (processCompleteImage
        (.success ⟨true, some ⟨"text", 1, 100⟩, none, none⟩)
        (.httpError 500 "Internal Server Error" none)).2.gptResult = none :=
  processCompleteImage_gpt_failure_resets
    (.success ⟨true, some ⟨"text", 1, 100⟩, none, none⟩)
    (.httpError 500 "Internal Server Error" none)
    (by rfl) (by rfl)

/-- `useDebounce` (useApi.ts lines 550–564) under the platform's
timer semantics, driven by a sequence of value changes `(tᵢ, vᵢ)` at
strictly increasing times.  Each change's effect schedules
`setDebouncedValue vᵢ` at `tᵢ + delay`; the next change's cleanup runs
`clearTimeout` at `tᵢ₊₁`, cancelling the pending propagation iff it has
not fired yet (`tᵢ₊₁ < tᵢ + delay`).  The result lists, in order, the
values that are actually propagated to the returned debounced value. -/
def debouncedOutputs {α : Type} (delay : Nat) : List (Nat × α) → List α
  | [] => []
  | [(_, v)] => [v]
  | (t₁, v₁) :: (t₂, v₂) :: rest =>
    if t₂ < t₁ + delay then debouncedOutputs delay ((t₂, v₂) :: rest)
    else v₁ :: debouncedOutputs delay ((t₂, v₂) :: rest)

/-- Whether every change of the sequence arrives within `delay` of the
previous one (the claim's rapid-sequence hypothesis). -/
def withinDelay {α : Type} (delay : Nat) : List (Nat × α) → Bool
  | [] => true
  | [_] => true
  | (t₁, _) :: (t₂, v₂) :: rest =>
    decide (t₂ < t₁ + delay) && withinDelay delay ((t₂, v₂) :: rest)

/-- C8: for a nonempty sequence of changes in which each change arrives
within `delay` of the previous one, every pending propagation is
cancelled by the next change, and only the final value of the sequence is
ever propagated. -/
theorem useDebounce_only_final_value {α : Type} (delay : Nat)
    (changes : List (Nat × α)) (t : Nat) (v : α)
    (hlast : changes.getLast? = some (t, v))
    (hw : withinDelay delay changes = true) :
    debouncedOutputs delay changes = [v] := by
  induction changes with
  | nil => simp at hlast
  | cons hd tl ih =>
    cases tl with
    | nil =>
      obtain ⟨t₁, v₁⟩ := hd
      simp only [List.getLast?_singleton, Option.some.injEq, Prod.mk.injEq] at hlast
      simp [debouncedOutputs, hlast.2]
    | cons hd₂ tl₂ =>
      obtain ⟨t₁, v₁⟩ := hd
      obtain ⟨t₂, v₂⟩ := hd₂
      simp only [withinDelay, Bool.and_eq_true, decide_eq_true_eq] at hw
      rw [List.getLast?_cons_cons] at hlast
      simp only [debouncedOutputs]
      rw [if_pos hw.1]
      exact ih hlast hw.2

/-- C8 witness: three changes 5 and 3 ms apart with a 10 ms delay — only
the last value is propagated. -/
theorem useDebounce_only_final_value_witness :
    debouncedOutputs 10 [(0, "a"), (5, "b"), (8, "c")] = ["c"] :=
  useDebounce_only_final_value 10 [(0, "a"), (5, "b"), (8, "c")] 8 "c"
    (by decide) (by decide)

/-- A string as stored in `localStorage`, classified by how `JSON.parse`
treats it: `jsonOf v` is the `JSON.stringify` output of the value `v`
(always a nonempty string, from which `JSON.parse` recovers `v`);
`notJson s` is a string on which `JSON.parse` throws — in particular the
empty string, which is additionally falsy. -/
inductive StoredString where
  | jsonOf (v : JsonValue)
  | notJson (s : String)

/-- `JSON.stringify` on a serializable value. -/
def jsonStringify (v : JsonValue) : StoredString := .jsonOf v

/-- `JSON.parse`: recovers the value from a stringified one, throws
(`none`) on anything that is not valid JSON. -/
def jsonParse : StoredString → Option JsonValue
  | .jsonOf v => some v
  | .notJson _ => none

/-- JavaScript truthiness of a stored string: only the empty string is
falsy; `JSON.stringify` output is never empty. -/
def StoredString.isTruthy : StoredString → Bool
  | .jsonOf _ => true
  | .notJson s => s != ""

/-- Browser `localStorage` as read by `useLocalStorage`, with stored
strings represented by their JSON classification. -/
def JsonStorage : Type := String → Option StoredString

/-- The lazy initializer of `useLocalStorage` (useApi.ts lines 507–518):
reads `frext_<key>`; a `null` or falsy (empty) item yields the supplied
initial value, otherwise the item is `JSON.parse`d, and a parse failure
is caught and mapped to the initial value. -/
def useLocalStorageInitial (σ : JsonStorage) (key : String)
    (initialValue : JsonValue) : JsonValue :=
  match σ ("frext_" ++ key) with
  | none => initialValue
  | some item =>
    if item.isTruthy then
      match jsonParse item with
      | some v => v
      | none => initialValue
    else initialValue

/-- The storage effect of `setValue` (useApi.ts lines 520–531):
`localStorage.setItem('frext_' + key, JSON.stringify(valueToStore))`. -/
def useLocalStorageSetValue (σ : JsonStorage) (key : String)
    (v : JsonValue) : JsonStorage :=
  fun q => if q = "frext_" ++ key then some (jsonStringify v) else σ q

/-- C9: writing a value via `setValue` and re-running the lazy initial
read restores that value; and when the stored string is not valid JSON,
the initial read yields the supplied default (the parse failure is
caught, never propagated). -/
theorem useLocalStorage_roundtrip (σ : JsonStorage) (key : String)
    (v dflt : JsonValue) (s : String) :
    useLocalStorageInitial (useLocalStorageSetValue σ key v) key dflt = v ∧
    (σ ("frext_" ++ key) = some (StoredString.notJson s) →
      useLocalStorageInitial σ key dflt = dflt) := by
  constructor
  · simp [useLocalStorageInitial, useLocalStorageSetValue, jsonStringify,
      jsonParse, StoredString.isTruthy]
  · intro h
    simp only [useLocalStorageInitial, h]
    cases hs : (s != "") <;> simp [StoredString.isTruthy, jsonParse, hs]

/-- A storage holding a corrupt (non-JSON) string under `frext_draft`. -/
def corruptDraftStorage : JsonStorage :=
  fun q => if q = "frext_draft" then some (.notJson "not json") else none

/-- C9 witness: a concrete round trip through key `draft`, and the
concrete corrupt read falling back to the default. -/
theorem useLocalStorage_roundtrip_witness :
    useLocalStorageInitial
        (useLocalStorageSetValue corruptDraftStorage "draft" (JsonValue.str "hello"))
        "draft" JsonValue.null = JsonValue.str "hello" ∧
    useLocalStorageInitial corruptDraftStorage "draft" JsonValue.null = JsonValue.null := by
  have h := useLocalStorage_roundtrip corruptDraftStorage "draft"
    (JsonValue.str "hello") JsonValue.null "not json"
  exact ⟨h.1, h.2 (by rfl)⟩

end Frext
